import Mathlib

/-!
Verification of the Whisp API Dataset Aggregation & Risk Classification
Engine against its specification.

The embedding models the code of `src/api/app` (routes, schemas, config)
directly, and models from the specification those engine components that
live outside the provided sources (the risk classifier `whisp_risk`, the
unit conversion of the Statistics Table Builder, the global runtime
configuration `parameters.config_runtime`, and the two feature-collection
conversion strategies used by `fc_to_dataframe`). Numeric statistics are
embedded as rationals; missing data is an explicit null value.
-/

namespace Whisp

/-- A cell of the statistics table: an explicit null, a number, or a
string. Mirrors the values carried by the pandas DataFrame built in
`routes.analyze_plots`. -/
inductive Value where
  | vNull : Value
  | vNum : ℚ → Value
  | vStr : String → Value
deriving DecidableEq, Repr

/-- Output unit of a run, from `schemas.OutputUnit`: hectares or percent. -/
inductive OutputUnit where
  | ha : OutputUnit
  | percent : OutputUnit
deriving DecidableEq, Repr

/-- The string value of an `OutputUnit` member, as used by
`request.output_unit.value` in `routes.analyze_plots`. -/
def OutputUnit.str : OutputUnit → String
  | OutputUnit.ha => "ha"
  | OutputUnit.percent => "percent"

/-- Input type of a request, from `schemas.InputType`. -/
inductive InputType where
  | gee_asset : InputType
  | geojson : InputType
deriving DecidableEq, Repr

/-- The analyze request body, from `schemas.AnalyzeRequest`. The four
indicator thresholds are the caller-supplied percentages; pydantic
constrains each to `ge=0, le=100`, which is modelled by
`validateRequest` below. -/
structure AnalyzeRequest where
  input_type : InputType
  input_data : String
  output_unit : OutputUnit
  calculate_risk : Bool
  ind_1_threshold : ℚ
  ind_2_threshold : ℚ
  ind_3_threshold : ℚ
  ind_4_threshold : ℚ
deriving DecidableEq, Repr

/-- The pydantic field validation of `schemas.AnalyzeRequest`: each of the
four thresholds carries `ge=0` and `le=100`. A body violating any bound
fails validation. -/
def validateRequest (r : AnalyzeRequest) : Except String AnalyzeRequest :=
  if 0 ≤ r.ind_1_threshold ∧ r.ind_1_threshold ≤ 100 ∧
     0 ≤ r.ind_2_threshold ∧ r.ind_2_threshold ≤ 100 ∧
     0 ≤ r.ind_3_threshold ∧ r.ind_3_threshold ≤ 100 ∧
     0 ≤ r.ind_4_threshold ∧ r.ind_4_threshold ≤ 100
  then Except.ok r
  else Except.error "value out of range"

/-- A feature of an Earth Engine feature collection: its property list.
The geometry is irrelevant to the table-building logic modelled here. -/
abbrev Feature : Type := List (String × Value)

/-- A feature collection is the list of its features, in order. -/
abbrev FeatureCollection : Type := List Feature

/-- A DataFrame, column oriented: column name paired with the column
cells, one per row. This matches how `routes.analyze_plots` iterates
`df.columns` and rewrites whole columns. -/
abbrev DataFrame : Type := List (String × List Value)

/-- Property lookup on a feature; an absent property is a null cell. -/
def getProp (f : Feature) (k : String) : Value :=
  match List.lookup k f with
  | some v => v
  | none => Value.vNull

/-- Modelled from the spec: `geemap.ee_to_pandas`, the fast conversion
path for small feature counts. It materializes, for each column of the
schema, the value of that property in every feature, in feature order. -/
def ee_to_pandas (schema : List String) (fc : FeatureCollection) : DataFrame :=
  schema.map (fun k => (k, fc.map (fun f => getProp f k)))

/-- Modelled from the spec: `modules.utils.collection_properties_to_df`,
the conversion path for large feature counts (not under src). Per the
spec it returns the same logical raw-value matrix; it is modelled here as
an accumulating left fold over the features, reversed at the end. -/
def collection_properties_to_df (schema : List String) (fc : FeatureCollection) : DataFrame :=
  schema.map (fun k => (k, (fc.foldl (fun acc f => getProp f k :: acc) []).reverse))

/-- The dispatch of `routes.fc_to_dataframe`, parameterized by the
large-count conversion function so that unreachability of that branch
can be stated as independence from it. -/
def fc_to_dataframe_with (largeFn : List String → FeatureCollection → DataFrame)
    (schema : List String) (fc : FeatureCollection) (num_features : ℕ) : DataFrame :=
  if num_features ≤ 500 then ee_to_pandas schema fc
  else largeFn schema fc

/-- `routes.fc_to_dataframe`: the small-count path for at most 500
features, the large-count path otherwise. -/
def fc_to_dataframe (schema : List String) (fc : FeatureCollection) (num_features : ℕ) : DataFrame :=
  fc_to_dataframe_with collection_properties_to_df schema fc num_features

/-- The columns exempted from numeric coercion by the loop at
`routes.analyze_plots` lines 185-191. -/
def metadataCols : List String :=
  ["Plot_ID", "Geometry_type", "Country", "Admin_Level_1",
   "In_waterbody", "Unit", "geoid", "system:index", "id", "name"]

/-- Digit run to a natural number, most significant digit first. -/
def digitsToNat (cs : List Char) : ℕ :=
  cs.foldl (fun acc c => acc * 10 + (c.toNat - 48)) 0

/-- Parse an unsigned decimal numeral, with an optional single decimal
point, into a rational. -/
def parseUnsigned (cs : List Char) : Option ℚ :=
  let ip := cs.takeWhile (fun c => c ≠ '.')
  match cs.dropWhile (fun c => c ≠ '.') with
  | [] =>
      if ip ≠ [] ∧ ip.all Char.isDigit
      then some ((digitsToNat ip : ℚ))
      else none
  | _ :: fp =>
      if (ip ≠ [] ∨ fp ≠ []) ∧ ip.all Char.isDigit ∧ fp.all Char.isDigit
      then some ((digitsToNat ip : ℚ) + (digitsToNat fp : ℚ) / (10 : ℚ) ^ fp.length)
      else none

/-- Modelled from the spec: the numeric-looking test of pandas
`to_numeric`, restricted to an optional sign, decimal digits and one
optional decimal point (exponent forms and surrounding whitespace are
not modelled). Returns the parsed rational when the string is numeric
looking. -/
def parseNumeric (s : String) : Option ℚ :=
  match s.toList with
  | [] => none
  | c :: rest =>
      if c = '-' then (parseUnsigned rest).map (fun q => -q)
      else if c = '+' then parseUnsigned rest
      else parseUnsigned (c :: rest)

/-- Element-wise parsing attempt of one cell: numbers and nulls pass
through, a string parses exactly when it is numeric looking. -/
def parseCell : Value → Option Value
  | Value.vNull => some Value.vNull
  | Value.vNum q => some (Value.vNum q)
  | Value.vStr s => (parseNumeric s).map Value.vNum

/-- Attempt to parse every cell of a column; `none` as soon as any single
cell fails to parse. -/
def toNumericParsedAll : List Value → Option (List Value)
  | [] => some []
  | c :: rest =>
      match parseCell c, toNumericParsedAll rest with
      | some v, some vs => some (v :: vs)
      | _, _ => none

/-- Modelled from the spec: pandas `to_numeric` with errors=ignore, as
invoked per column by `routes.analyze_plots`. Per the pandas contract,
invalid parsing returns the input: the column is converted only when
every cell parses, and is returned unchanged otherwise. -/
def to_numeric (cells : List Value) : List Value :=
  match toNumericParsedAll cells with
  | some parsed => parsed
  | none => cells

/-- The coercion loop of `routes.analyze_plots` lines 185-191: every
column whose name is not in the exemption list is passed through
`to_numeric` with errors=ignore. -/
def coerceNumericColumns (df : DataFrame) : DataFrame :=
  df.map (fun nc => if nc.1 ∈ metadataCols then nc else (nc.1, to_numeric nc.2))

/-- Unit of a registered dataset layer, from the spec data model:
area, percent-of-plot, categorical or boolean. -/
inductive DatasetUnit where
  | area : DatasetUnit
  | percentOfPlot : DatasetUnit
  | categorical : DatasetUnit
  | boolean : DatasetUnit
deriving DecidableEq, Repr

/-- A dataset descriptor, reduced to the fields the table builder needs. -/
structure Dataset where
  id : String
  unit : DatasetUnit
deriving DecidableEq, Repr

/-- Unit conversion error, from the spec error model. -/
inductive ConvError where
  | zeroArea : ConvError
  | nonNumeric : ConvError
deriving DecidableEq, Repr

/-- Area value to percent of plot: divide by plot area, times 100. -/
def toPercent (v a : ℚ) : ℚ := v / a * 100

/-- Percent-of-plot value to area: multiply by plot area, divide by 100. -/
def toArea (v a : ℚ) : ℚ := v * a / 100

/-- Modelled from the spec: the unit conversion of the Statistics Table
Builder (modules/stats.py, not under src). A layer declared area is
divided by plot area and multiplied by 100 to produce percent of plot; a
layer declared percent-of-plot is multiplied by plot area and divided by
100 to produce area; categorical and boolean layers are never converted;
a conversion needing the plot area raises ConversionError when the area
is not strictly positive, and raises ConversionError on a non-numeric
value; nulls pass through. -/
def convertStat (raw : Value) (u : DatasetUnit) (area : ℚ) (req : OutputUnit) :
    Except ConvError Value :=
  match u with
  | DatasetUnit.categorical => Except.ok raw
  | DatasetUnit.boolean => Except.ok raw
  | DatasetUnit.area =>
      match req with
      | OutputUnit.ha => Except.ok raw
      | OutputUnit.percent =>
          match raw with
          | Value.vNull => Except.ok Value.vNull
          | Value.vNum v =>
              if area ≤ 0 then Except.error ConvError.zeroArea
              else Except.ok (Value.vNum (toPercent v area))
          | Value.vStr _ => Except.error ConvError.nonNumeric
  | DatasetUnit.percentOfPlot =>
      match req with
      | OutputUnit.percent => Except.ok raw
      | OutputUnit.ha =>
          match raw with
          | Value.vNull => Except.ok Value.vNull
          | Value.vNum v =>
              if area ≤ 0 then Except.error ConvError.zeroArea
              else Except.ok (Value.vNum (toArea v area))
          | Value.vStr _ => Except.error ConvError.nonNumeric

/-- Per-plot input to the table builder: the plot area and the raw
values, aligned with the registry order. -/
structure PlotData where
  area : ℚ
  raws : List Value
deriving DecidableEq, Repr

/-- Modelled from the spec: one row of the statistics table. A cell whose
conversion raises ConversionError is marked null; the error is contained
to that cell and the rest of the row is still populated. -/
def buildRow (req : OutputUnit) (registry : List Dataset) (p : PlotData) : List Value :=
  (registry.zip p.raws).map
    (fun dr =>
      match convertStat dr.2 dr.1.unit p.area req with
      | Except.ok v => v
      | Except.error _ => Value.vNull)

/-- Modelled from the spec: the statistics table, one row per plot in
input order; a failing cell does not abort the run for other plots. -/
def buildTable (req : OutputUnit) (registry : List Dataset) (plots : List PlotData) :
    List (List Value) :=
  plots.map (buildRow req registry)

/-- The scenario registry of spec section 8: tree_cover declared area,
commodity declared percent-of-plot, water declared boolean. -/
def scenarioRegistry : List Dataset :=
  [⟨"tree_cover", DatasetUnit.area⟩,
   ⟨"commodity", DatasetUnit.percentOfPlot⟩,
   ⟨"water", DatasetUnit.boolean⟩]

/-- Tri-state result of one risk indicator, from the spec data model. -/
inductive IndState where
  | exceeded : IndState
  | not_exceeded : IndState
  | unknown : IndState
deriving DecidableEq, Repr

/-- The EUDR risk label, from `schemas.RiskLevel`. -/
inductive RiskLevel where
  | low : RiskLevel
  | high : RiskLevel
  | more_info_needed : RiskLevel
deriving DecidableEq, Repr

/-- The four caller-supplied indicator thresholds. -/
structure Thresholds where
  t1 : ℚ
  t2 : ℚ
  t3 : ℚ
  t4 : ℚ
deriving DecidableEq, Repr

/-- The four contributing statistics of one plot row, one per indicator;
a null statistic is an explicit none. -/
structure RiskRow where
  ind1 : Option ℚ
  ind2 : Option ℚ
  ind3 : Option ℚ
  ind4 : Option ℚ
deriving DecidableEq, Repr

/-- Modelled from the spec: the state of one indicator (modules/risk.py,
not under src): exceeded when the contributing statistic is at least the
threshold, inclusive; not_exceeded otherwise; unknown when the statistic
is null. -/
def indState : Option ℚ → ℚ → IndState
  | none, _ => IndState.unknown
  | some v, t => if t ≤ v then IndState.exceeded else IndState.not_exceeded

/-- Modelled from the spec: the four indicator states of one plot row,
each computed from its own contributing statistic and threshold. -/
def indicatorStates (thr : Thresholds) (row : RiskRow) :
    IndState × IndState × IndState × IndState :=
  (indState row.ind1 thr.t1, indState row.ind2 thr.t2,
   indState row.ind3 thr.t3, indState row.ind4 thr.t4)

/-- Modelled from the spec: classification of one plot. The exact rule
table combining the four indicator states is an open question of the
spec (section 9), so it is an explicit parameter; the label is a pure
function of the four states. -/
def classifyRow (combine : IndState × IndState × IndState × IndState → RiskLevel)
    (thr : Thresholds) (row : RiskRow) : RiskLevel :=
  combine (indicatorStates thr row)

/-- Modelled from the spec: `modules.risk.whisp_risk` (not under src),
restricted to the risk-label sequence: each plot row is classified
independently, in row order. -/
def whisp_risk (combine : IndState × IndState × IndState × IndState → RiskLevel)
    (thr : Thresholds) (rows : List RiskRow) : List RiskLevel :=
  rows.map (classifyRow combine thr)

/-- Modelled from the spec: `parameters.config_runtime` (not under src),
the process-global mutable configuration mutated by
`routes.analyze_plots` around the stats call. -/
structure RuntimeConfig where
  percent_or_ha : String
deriving DecidableEq, Repr

/-- `config.Settings.WHISP_THRESHOLD_TO_DRIVE`. -/
def WHISP_THRESHOLD_TO_DRIVE : ℕ := 500

/-- The response body of `schemas.AnalyzeResponse`; results are the
records of the final DataFrame. -/
structure AnalyzeResponse where
  status : String
  num_features : ℕ
  output_unit : String
  risk_calculated : Bool
  results : DataFrame
  message : String
deriving DecidableEq

/-- Outcome of the route body: an HTTP error with status code and
detail, or a successful response. -/
inductive ApiResult where
  | httpError : ℕ → String → ApiResult
  | ok : AnalyzeResponse → ApiResult
deriving DecidableEq

/-- The too-large message of `routes.analyze_plots`. -/
def tooLargeMessage (n : ℕ) : String :=
  "Dataset has " ++ toString n ++ " features, which exceeds the limit of " ++
    toString WHISP_THRESHOLD_TO_DRIVE ++
    ". Please use the Google Drive export workflow or reduce the number of features."

/-- The success message of `routes.analyze_plots`. -/
def successMessage (n : ℕ) : String :=
  "Successfully analyzed " ++ toString n ++ " features"

/-- The core of `routes.analyze_plots` after GEE initialization and
input parsing, with explicit global-configuration state passing. The
stats computation (`modules.stats.get_stats`, not under src, reads the
global unit setting and may fail), the large-count conversion path and
the risk step (`modules.risk.whisp_risk` on the DataFrame) are
parameters, so that claims about which of them a given input reaches
are statable as independence. Mirrors the source order: the zero-feature
check, the too-large check, then the global unit mutation, the stats
call, DataFrame conversion, numeric coercion, the restore of the global
unit, and the optional risk step. A stats failure raises before the
restore line, leaving the global mutated, exactly as in the source. -/
def analyze_plots
    (statsFn : RuntimeConfig → FeatureCollection → Except String FeatureCollection)
    (largeFn : List String → FeatureCollection → DataFrame)
    (riskFn : AnalyzeRequest → DataFrame → DataFrame)
    (cfg : RuntimeConfig) (req : AnalyzeRequest)
    (schema : List String) (fc : FeatureCollection) : ApiResult × RuntimeConfig :=
  let n := fc.length
  if n = 0 then
    (ApiResult.httpError 400 "Input contains no features", cfg)
  else if WHISP_THRESHOLD_TO_DRIVE < n then
    (ApiResult.ok ⟨"too_large", n, req.output_unit.str, false, [], tooLargeMessage n⟩, cfg)
  else
    let originalUnit := cfg.percent_or_ha
    let cfg1 : RuntimeConfig := ⟨req.output_unit.str⟩
    match statsFn cfg1 fc with
    | Except.error e =>
        (ApiResult.httpError 500 ("Failed to run analysis: " ++ e), cfg1)
    | Except.ok statsFc =>
        let df := coerceNumericColumns (fc_to_dataframe_with largeFn schema statsFc n)
        let cfg2 : RuntimeConfig := ⟨originalUnit⟩
        let dfFinal := if req.calculate_risk then riskFn req df else df
        (ApiResult.ok ⟨"success", n, req.output_unit.str, req.calculate_risk,
          dfFinal, successMessage n⟩, cfg2)

/-- The request validation boundary of the analyze endpoint: FastAPI
rejects a body failing pydantic validation with HTTP 422 before the
route handler runs; the handler is a parameter so that this can be
stated as independence from it. -/
def postAnalyze (handler : AnalyzeRequest → ApiResult) (raw : AnalyzeRequest) : ApiResult :=
  match validateRequest raw with
  | Except.error msg => ApiResult.httpError 422 msg
  | Except.ok r => handler r

/-- A default request, matching the documented example body. -/
def reqDefault : AnalyzeRequest :=
  ⟨InputType.gee_asset, "projects/ee-whisp/assets/test", OutputUnit.ha, false, 10, 10, 0, 0⟩

/-- A request with an out-of-range first threshold, as in the API test
suite (ind_1_threshold = 150). -/
def reqBad : AnalyzeRequest :=
  ⟨InputType.gee_asset, "projects/ee-whisp/assets/test", OutputUnit.ha, false, 150, 10, 0, 0⟩

/-- A request asking for percent output. -/
def reqPercent : AnalyzeRequest :=
  ⟨InputType.geojson, "", OutputUnit.percent, false, 10, 10, 0, 0⟩

/-- A global configuration whose unit setting is hectares. -/
def cfgHa : RuntimeConfig := ⟨"ha"⟩

/-- A one-feature collection. -/
def fcOne : FeatureCollection := [[("a", Value.vNum 1)]]

/-- A concrete combination rule, for instantiating classifier results. -/
def combineAllLow : IndState × IndState × IndState × IndState → RiskLevel :=
  fun _ => RiskLevel.low

/-- The default thresholds of the request schema. -/
def thrDefault : Thresholds := ⟨10, 10, 0, 0⟩

/-- A concrete plot row of contributing statistics. -/
def rowSample : RiskRow := ⟨some 10, some 5, none, some 0⟩

/-! Helper lemmas. -/

/-- When every cell of a column parses, the whole column parses to the
element-wise parsed cells. -/
lemma toNumericParsedAll_eq_some (cells : List Value)
    (h : ∀ c ∈ cells, (parseCell c).isSome) :
    toNumericParsedAll cells = some (cells.map (fun c => (parseCell c).getD c)) := by
  induction cells with
  | nil => rfl
  | cons c rest ih =>
      obtain ⟨v, hv⟩ := Option.isSome_iff_exists.mp (h c (List.mem_cons_self c rest))
      have hr := ih (fun x hx => h x (List.mem_cons_of_mem c hx))
      simp [toNumericParsedAll, hv, hr]

/-- When any cell of a column fails to parse, the whole column parse
fails. -/
lemma toNumericParsedAll_eq_none (cells : List Value)
    (h : ∃ c ∈ cells, parseCell c = none) :
    toNumericParsedAll cells = none := by
  induction cells with
  | nil => simp at h
  | cons c rest ih =>
      obtain ⟨x, hx, hpx⟩ := h
      rcases List.mem_cons.mp hx with hxc | hmem
      · subst hxc
        cases hrest : toNumericParsedAll rest <;> simp [toNumericParsedAll, hpx]
      · have hnone := ih ⟨x, hmem, hpx⟩
        cases hpc : parseCell c <;> simp [toNumericParsedAll, hpc, hnone]

/-- Reversing an accumulating cons fold yields the map. -/
lemma foldl_cons_reverse (g : Feature → Value) (l : List Feature) :
    ∀ acc : List Value,
      (l.foldl (fun acc f => g f :: acc) acc).reverse = acc.reverse ++ l.map g := by
  induction l with
  | nil => intro acc; simp
  | cons f rest ih =>
      intro acc
      simp [List.foldl, ih (g f :: acc)]

/-! Claim theorems. -/

/-- Claim C5, counterexample: in the non-metadata column stat holding
the cells "1.5" and "abc", the numeric-looking string "1.5" is not
coerced to a float by the coercion loop: pandas to_numeric with
errors=ignore returns the whole column unchanged as soon as one cell
fails to parse, so the claimed per-cell coercion fails. -/
theorem c5_per_cell_coercion_counterexample :
    "stat" ∉ metadataCols ∧
    (parseNumeric "1.5").isSome = true ∧
    parseNumeric "abc" = none ∧
    coerceNumericColumns [("stat", [Value.vStr "1.5", Value.vStr "abc"])] =
      [("stat", [Value.vStr "1.5", Value.vStr "abc"])] := by
  exact ⟨by decide, rfl, rfl, rfl⟩

/-- Claim C5, amended: numeric coercion is per column, not per cell.
For a non-metadata column, when every cell parses as numeric the whole
column is replaced by the parsed cells, and when any cell fails to
parse the whole column, numeric-looking strings included, is left
unchanged; columns named in the metadata exemption list always pass
through unchanged. -/
theorem c5_per_column_coercion : ∀ (colName : String) (cells : List Value),
    colName ∉ metadataCols →
    ((∀ c ∈ cells, (parseCell c).isSome) →
      coerceNumericColumns [(colName, cells)] =
        [(colName, cells.map (fun c => (parseCell c).getD c))]) ∧
    ((∃ c ∈ cells, parseCell c = none) →
      coerceNumericColumns [(colName, cells)] = [(colName, cells)]) ∧
    (∀ (df : DataFrame) (nameM : String) (cellsM : List Value),
      nameM ∈ metadataCols → (nameM, cellsM) ∈ df →
      (nameM, cellsM) ∈ coerceNumericColumns df) := by
  intro colName cells hno
  refine ⟨?_, ?_, ?_⟩
  · intro hall
    simp [coerceNumericColumns, hno, to_numeric, toNumericParsedAll_eq_some cells hall]
  · intro hsome
    simp [coerceNumericColumns, hno, to_numeric, toNumericParsedAll_eq_none cells hsome]
  · intro df nameM cellsM hmeta hmem
    have hmap := List.mem_map_of_mem
      (fun nc : String × List Value =>
        if nc.1 ∈ metadataCols then nc else (nc.1, to_numeric nc.2)) hmem
    simpa [coerceNumericColumns, hmeta] using hmap

/-- Claim C5, witness: a non-metadata column whose cells all parse is
coerced element-wise. -/
theorem c5_per_column_coercion_witness :
    coerceNumericColumns [("stat", [Value.vStr "15", Value.vNull])] =
      [("stat", [Value.vStr "15", Value.vNull].map (fun c => (parseCell c).getD c))] :=
  (c5_per_column_coercion "stat" [Value.vStr "15", Value.vNull] (by decide)).1 (by decide)

/-- Claim C7: the two conversion strategies materializing the per-plot
statistics matrix agree: the fast small-count path and the large-count
path return the same DataFrame on every input, and the dispatch of
fc_to_dataframe therefore always equals the small-count path. -/
theorem c7_conversion_paths_agree : ∀ (schema : List String) (fc : FeatureCollection) (n : ℕ),
    ee_to_pandas schema fc = collection_properties_to_df schema fc ∧
    fc_to_dataframe schema fc n = ee_to_pandas schema fc := by
  intro schema fc n
  have hmain : ee_to_pandas schema fc = collection_properties_to_df schema fc := by
    unfold ee_to_pandas collection_properties_to_df
    refine List.map_congr_left ?_
    intro k _
    have hfold := foldl_cons_reverse (fun f => getProp f k) fc []
    simp at hfold
    simp [hfold]
  refine ⟨hmain, ?_⟩
  unfold fc_to_dataframe fc_to_dataframe_with
  by_cases hn : n ≤ 500
  · simp [hn]
  · simp [hn, hmain]

/-- Claim C2: a request body with any of the four indicator thresholds
outside the inclusive range 0 to 100 is rejected by request validation
with HTTP 422, independently of the route handler, so no analysis or
classification runs. -/
theorem c2_threshold_validation : ∀ raw : AnalyzeRequest,
    (¬ (0 ≤ raw.ind_1_threshold ∧ raw.ind_1_threshold ≤ 100) ∨
     ¬ (0 ≤ raw.ind_2_threshold ∧ raw.ind_2_threshold ≤ 100) ∨
     ¬ (0 ≤ raw.ind_3_threshold ∧ raw.ind_3_threshold ≤ 100) ∨
     ¬ (0 ≤ raw.ind_4_threshold ∧ raw.ind_4_threshold ≤ 100)) →
    ∀ handler handler2 : AnalyzeRequest → ApiResult,
      postAnalyze handler raw = ApiResult.httpError 422 "value out of range" ∧
      postAnalyze handler raw = postAnalyze handler2 raw := by
  intro raw h handler handler2
  have hcond : ¬ (0 ≤ raw.ind_1_threshold ∧ raw.ind_1_threshold ≤ 100 ∧
      0 ≤ raw.ind_2_threshold ∧ raw.ind_2_threshold ≤ 100 ∧
      0 ≤ raw.ind_3_threshold ∧ raw.ind_3_threshold ≤ 100 ∧
      0 ≤ raw.ind_4_threshold ∧ raw.ind_4_threshold ≤ 100) := by
    tauto
  unfold postAnalyze validateRequest
  rw [if_neg hcond]
  exact ⟨rfl, rfl⟩

/-- Claim C2, witness: the request of the API test suite with
ind_1_threshold 150 receives HTTP 422. -/
theorem c2_threshold_validation_witness :
    postAnalyze (fun _ => ApiResult.httpError 0 "") reqBad =
      ApiResult.httpError 422 "value out of range" :=
  (c2_threshold_validation reqBad (Or.inl (by norm_num [reqBad]))
    (fun _ => ApiResult.httpError 0 "") (fun _ => ApiResult.httpError 0 "")).1

/-- Claim C10: a parsed feature collection with zero features is
rejected with HTTP 400 and the message Input contains no features, for
every stats, conversion and risk function alike, so no statistics
computation or classification is performed and the global configuration
is untouched. -/
theorem c10_zero_features : ∀ statsFn largeFn riskFn cfg req schema
    (fc : FeatureCollection),
    fc.length = 0 →
    analyze_plots statsFn largeFn riskFn cfg req schema fc =
      (ApiResult.httpError 400 "Input contains no features", cfg) := by
  intro s l r cfg req schema fc h
  unfold analyze_plots
  simp [h]

/-- Claim C10, witness: the empty collection is rejected with 400. -/
theorem c10_zero_features_witness :
    analyze_plots (fun _ _ => Except.ok []) (fun _ _ => []) (fun _ d => d)
        cfgHa reqDefault [] [] =
      (ApiResult.httpError 400 "Input contains no features", cfgHa) :=
  c10_zero_features (fun _ _ => Except.ok []) (fun _ _ => []) (fun _ d => d)
    cfgHa reqDefault [] [] rfl

/-- Claim C9: a feature collection with more than
WHISP_THRESHOLD_TO_DRIVE (500) features yields the too_large response
with an empty results list and risk_calculated false, independently of
the stats and risk functions; and on every input the outcome is
independent of the large-count conversion path, which is therefore
unreachable (whenever the conversion runs, the count is at most 500). -/
theorem c9_too_large_short_circuit : ∀ statsFn largeFn largeFn2 riskFn cfg req schema
    (fc : FeatureCollection),
    (WHISP_THRESHOLD_TO_DRIVE < fc.length →
      analyze_plots statsFn largeFn riskFn cfg req schema fc =
        (ApiResult.ok ⟨"too_large", fc.length, req.output_unit.str, false, [],
          tooLargeMessage fc.length⟩, cfg)) ∧
    analyze_plots statsFn largeFn riskFn cfg req schema fc =
      analyze_plots statsFn largeFn2 riskFn cfg req schema fc := by
  intro s l l2 r cfg req schema fc
  constructor
  · intro h
    have h0 : ¬ fc.length = 0 := by
      intro hz
      rw [hz] at h
      exact Nat.not_lt_zero _ h
    unfold analyze_plots
    simp [h0, h]
  · unfold analyze_plots
    by_cases h0 : fc.length = 0
    · simp [h0]
    · by_cases h1 : WHISP_THRESHOLD_TO_DRIVE < fc.length
      · simp [h0, h1]
      · have hle : fc.length ≤ 500 := by
          unfold WHISP_THRESHOLD_TO_DRIVE at h1
          omega
        cases hs : s ⟨req.output_unit.str⟩ fc <;>
          simp [h0, h1, hs, fc_to_dataframe_with, hle]

/-- Claim C9, witness: a 501-feature collection receives the too_large
response with empty results and no risk calculation. -/
theorem c9_too_large_short_circuit_witness :
    analyze_plots (fun _ _ => Except.ok []) (fun _ _ => []) (fun _ d => d)
        cfgHa reqDefault [] (List.replicate 501 ([] : Feature)) =
      (ApiResult.ok ⟨"too_large", 501, "ha", false, [], tooLargeMessage 501⟩, cfgHa) := by
  have h := (c9_too_large_short_circuit (fun _ _ => Except.ok []) (fun _ _ => [])
    (fun _ _ => []) (fun _ d => d) cfgHa reqDefault []
    (List.replicate 501 ([] : Feature))).1
    (by rw [List.length_replicate]; norm_num [WHISP_THRESHOLD_TO_DRIVE])
  simpa only [List.length_replicate, reqDefault, OutputUnit.str] using h

/-- Claim C4, counterexample: a run that fails during the stats call
leaves the process-global unit setting mutated to the request unit, so
a global setting does not equal its pre-run value after a failed run;
the requested unit is communicated through mutated global state, not
purely as a function parameter. -/
theorem c4_global_mutation_counterexample :
    (analyze_plots (fun _ _ => Except.error "backend failure") (fun _ _ => [])
        (fun _ d => d) cfgHa reqPercent [] fcOne).2 ≠ cfgHa := by
  decide

/-- Claim C4, amended: the run mutates the process-global unit setting
to the request unit around the stats call; a successful run restores
the setting to its pre-run value, but a run whose stats call fails
raises before the restore line and leaves the global set to the request
unit. -/
theorem c4_unit_restore : ∀ statsFn largeFn riskFn cfg req schema
    (fc : FeatureCollection) (out : FeatureCollection) (e : String),
    0 < fc.length → fc.length ≤ WHISP_THRESHOLD_TO_DRIVE →
    (statsFn ⟨req.output_unit.str⟩ fc = Except.ok out →
      (analyze_plots statsFn largeFn riskFn cfg req schema fc).2 = cfg) ∧
    (statsFn ⟨req.output_unit.str⟩ fc = Except.error e →
      (analyze_plots statsFn largeFn riskFn cfg req schema fc).2 =
        ⟨req.output_unit.str⟩) := by
  intro s l r cfg req schema fc out e hpos hle
  have h0 : ¬ fc.length = 0 := by omega
  have h1 : ¬ WHISP_THRESHOLD_TO_DRIVE < fc.length := by omega
  constructor
  · intro hs
    rcases cfg with ⟨u⟩
    unfold analyze_plots
    simp [h0, h1, hs]
  · intro hs
    unfold analyze_plots
    simp [h0, h1, hs]

/-- Claim C4, witness: a successful run restores the global unit
setting. -/
theorem c4_unit_restore_witness :
    (analyze_plots (fun _ f => Except.ok f) (fun _ _ => []) (fun _ d => d)
        cfgHa reqPercent [] fcOne).2 = cfgHa :=
  (c4_unit_restore (fun _ f => Except.ok f) (fun _ _ => []) (fun _ d => d)
    cfgHa reqPercent [] fcOne fcOne "e" (by decide) (by decide)).1 rfl

/-- Claim C1: each of the four risk indicators is exceeded exactly when
its non-null contributing statistic is at least its threshold,
inclusive, is not_exceeded exactly when the statistic is strictly below
it, and is unknown exactly when the statistic is null; the four
indicators are computed independently, each from its own statistic and
threshold. -/
theorem c1_indicator_states : ∀ (thr : Thresholds) (row : RiskRow) (v t : ℚ),
    (indState (some v) t = IndState.exceeded ↔ t ≤ v) ∧
    (indState (some v) t = IndState.not_exceeded ↔ v < t) ∧
    (∀ x : Option ℚ, indState x t = IndState.unknown ↔ x = none) ∧
    indicatorStates thr row =
      (indState row.ind1 thr.t1, indState row.ind2 thr.t2,
       indState row.ind3 thr.t3, indState row.ind4 thr.t4) := by
  intro thr row v t
  refine ⟨?_, ?_, ?_, rfl⟩
  · simp only [indState]
    split_ifs with h <;> simp [h]
  · simp only [indState]
    split_ifs with h
    · simp [not_lt.mpr h]
    · simp [lt_of_not_le h]
  · intro x
    cases x with
    | none => simp [indState]
    | some v' =>
        simp only [indState]
        split_ifs <;> simp

/-- Claim C3: converting a numeric statistic between area and percent
for a plot whose area is not strictly positive yields ConversionError,
for both conversion directions; the table still has one row per plot;
and in the spec scenario a zero-area plot row has a null tree_cover
cell while its commodity and water cells remain populated. -/
theorem c3_zero_area_conversion : ∀ a : ℚ, a ≤ 0 →
    (∀ v : ℚ, convertStat (Value.vNum v) DatasetUnit.area a OutputUnit.percent =
      Except.error ConvError.zeroArea) ∧
    (∀ v : ℚ, convertStat (Value.vNum v) DatasetUnit.percentOfPlot a OutputUnit.ha =
      Except.error ConvError.zeroArea) ∧
    (∀ (req : OutputUnit) (registry : List Dataset) (plots : List PlotData),
      (buildTable req registry plots).length = plots.length) ∧
    (∀ (x y : ℚ) (w : Value),
      buildRow OutputUnit.percent scenarioRegistry ⟨a, [Value.vNum x, Value.vNum y, w]⟩ =
        [Value.vNull, Value.vNum y, w]) := by
  intro a ha
  refine ⟨?_, ?_, ?_, ?_⟩
  · intro v
    simp [convertStat, ha]
  · intro v
    simp [convertStat, ha]
  · intro req registry plots
    simp [buildTable]
  · intro x y w
    simp [buildRow, scenarioRegistry, convertStat, ha]

/-- Claim C3, witness: for a zero-area plot, the area-to-percent
conversion fails and the scenario row keeps its other cells. -/
theorem c3_zero_area_conversion_witness :
    convertStat (Value.vNum 5) DatasetUnit.area 0 OutputUnit.percent =
      Except.error ConvError.zeroArea ∧
    buildRow OutputUnit.percent scenarioRegistry
        ⟨0, [Value.vNum 5, Value.vNum 7, Value.vStr "true"]⟩ =
      [Value.vNull, Value.vNum 7, Value.vStr "true"] := by
  have h := c3_zero_area_conversion 0 (by norm_num)
  exact ⟨h.1 5, h.2.2.2 5 7 (Value.vStr "true")⟩

/-- Claim C6: for a strictly positive plot area, converting a numeric
value from area to percent of plot and back recovers the value exactly,
hence within the 1e-9 relative tolerance; the conversions agree with
the declared formulas; and categorical and boolean layers are never
converted, whatever the requested unit. -/
theorem c6_unit_round_trip : ∀ (v a : ℚ), 0 < a →
    |toArea (toPercent v a) a - v| ≤ 1 / 1000000000 * |v| ∧
    toArea (toPercent v a) a = v ∧
    convertStat (Value.vNum v) DatasetUnit.area a OutputUnit.percent =
      Except.ok (Value.vNum (toPercent v a)) ∧
    convertStat (Value.vNum v) DatasetUnit.percentOfPlot a OutputUnit.ha =
      Except.ok (Value.vNum (toArea v a)) ∧
    (∀ (raw : Value) (req : OutputUnit),
      convertStat raw DatasetUnit.categorical a req = Except.ok raw ∧
      convertStat raw DatasetUnit.boolean a req = Except.ok raw) := by
  intro v a ha
  have hne : a ≠ 0 := ne_of_gt ha
  have hnot : ¬ a ≤ 0 := not_le.mpr ha
  have hrt : toArea (toPercent v a) a = v := by
    unfold toPercent toArea
    field_simp
  refine ⟨?_, hrt, ?_, ?_, ?_⟩
  · rw [hrt]
    simp only [sub_self, abs_zero]
    positivity
  · simp [convertStat, hnot]
  · simp [convertStat, hnot]
  · intro raw req
    exact ⟨rfl, rfl⟩

/-- Claim C6, witness: round trip at value 4 and area 10. -/
theorem c6_unit_round_trip_witness : toArea (toPercent 4 10) 10 = 4 :=
  (c6_unit_round_trip 4 10 (by norm_num)).2.1

/-- Claim C8: the classifier is deterministic and per-plot independent:
the label sequence has one label per row, the label at every index is a
function of that row alone (so plot order and the other plots are
irrelevant), classification distributes over concatenation of plot
lists, and the label is a pure function of the four indicator states,
with no further dependency on the absolute statistics. -/
theorem c8_deterministic_independent_classification :
    ∀ (combine : IndState × IndState × IndState × IndState → RiskLevel)
      (thr : Thresholds) (rows rows2 : List RiskRow),
    (whisp_risk combine thr rows).length = rows.length ∧
    (∀ (i : ℕ) (h : i < rows.length) (h2 : i < (whisp_risk combine thr rows).length),
      (whisp_risk combine thr rows).get ⟨i, h2⟩ =
        classifyRow combine thr (rows.get ⟨i, h⟩)) ∧
    whisp_risk combine thr (rows ++ rows2) =
      whisp_risk combine thr rows ++ whisp_risk combine thr rows2 ∧
    (∀ r1 r2 : RiskRow, indicatorStates thr r1 = indicatorStates thr r2 →
      classifyRow combine thr r1 = classifyRow combine thr r2) := by
  intro combine thr rows rows2
  refine ⟨by simp [whisp_risk], ?_, by simp [whisp_risk], ?_⟩
  · intro i h h2
    simp [whisp_risk]
  · intro r1 r2 hstates
    simp [classifyRow, hstates]

/-- Claim C8, witness: the label of the single plot in a one-row table
is that plot's own classification. -/
theorem c8_deterministic_independent_classification_witness :
    (whisp_risk combineAllLow thrDefault [rowSample]).get ⟨0, by simp [whisp_risk]⟩ =
      classifyRow combineAllLow thrDefault rowSample :=
  (c8_deterministic_independent_classification combineAllLow thrDefault [rowSample] []).2.1
    0 (by simp) (by simp [whisp_risk])

end Whisp
